import Mathlib

/-!
Shallow embedding of `scripts/gp-error-filter.js`: a batch validator that
round-trips GP5 guitar tablature files through alphaTab's alphaTex
export/import, records per-file outcomes, and writes a JSON report plus a
flat log.  Dynamic JavaScript values are modelled by the inductive `JsVal`;
JavaScript property access, truthiness, `||`, `??` and exception propagation
(`Except`) are modelled explicitly.  External capabilities (filesystem,
alphaTab loader/exporter/importer) are oracles supplied as parameters.
-/

namespace GpFilter

/-- A dynamic JavaScript value: the shapes that flow through
`extractDiagnostics` and the thrown round-trip failure objects. -/
inductive JsVal where
  | null
  | undefined
  | bool (b : Bool)
  | num (n : Int)
  | str (s : String)
  | obj (fields : List (String × JsVal))
  | arr (elems : List JsVal)
  deriving Repr

/-- JavaScript truthiness: `null`, `undefined`, `false`, `0`, `""` are falsy;
objects and arrays are always truthy. -/
def truthy : JsVal → Bool
  | .null => false
  | .undefined => false
  | .bool b => b
  | .num n => n != 0
  | .str s => s != ""
  | .obj _ => true
  | .arr _ => true

/-- A value is nullish (`null` or `undefined`) for the `??` operator. -/
def nullish : JsVal → Bool
  | .null => true
  | .undefined => true
  | _ => false

/-- Property read `base[name]` on a non-nullish base: objects look the field
up (first binding wins, as in a JS object literal), arrays expose `length`,
any other primitive yields `undefined`.  (Reading a property of `null` or
`undefined` throws; that case is `getFieldE` below.) -/
def getField : JsVal → String → JsVal
  | .obj fields, name =>
    match fields.lookup name with
    | some v => v
    | none => .undefined
  | .arr elems, name => if name = "length" then .num elems.length else .undefined
  | _, _ => .undefined

/-- Property read with JavaScript exception semantics: reading from `null`
or `undefined` throws a TypeError. -/
def getFieldE (base : JsVal) (name : String) : Except String JsVal :=
  match base with
  | .null => .error "TypeError: Cannot read properties of null"
  | .undefined => .error "TypeError: Cannot read properties of undefined"
  | b => .ok (getField b name)

/-- `a ?? b` with the right operand already evaluated (both operands in the
source are pure property reads). -/
def jsNullish (a b : JsVal) : JsVal := if nullish a then b else a

/-- `a || b` with the right operand already evaluated. -/
def jsOr (a b : JsVal) : JsVal := if truthy a then a else b

mutual

/-- `String(v)`.  Arrays stringify by comma-joining their elements with
nullish elements blank, objects as "[object Object]" (the generic case; the
exact text is never inspected by the program). -/
def jsToString : JsVal → String
  | .null => "null"
  | .undefined => "undefined"
  | .bool true => "true"
  | .bool false => "false"
  | .num n => toString n
  | .str s => s
  | .obj _ => "[object Object]"
  | .arr elems => String.intercalate "," (jsToStringElems elems)

/-- Stringify array elements for the comma join of `jsToString`. -/
def jsToStringElems : List JsVal → List String
  | [] => []
  | .null :: rest => "" :: jsToStringElems rest
  | .undefined :: rest => "" :: jsToStringElems rest
  | v :: rest => jsToString v :: jsToStringElems rest

end

/-- Canonical position record produced by `mapItem`: the fields hold
whatever dynamic values were resolved (numbers in practice, `null` or
`undefined` when absent). -/
structure JsPos where
  line : JsVal
  column : JsVal
  offset : JsVal
  deriving Repr

/-- One normalized diagnostic item, mirroring the object literal built by
`mapItem` in `extractDiagnostics`.  `endPos = none` models the literal
`end: null`. -/
structure DiagItem where
  code : JsVal
  message : JsVal
  severity : JsVal
  start : JsPos
  endPos : Option JsPos
  deriving Repr

/-- The `mapItem` closure of `extractDiagnostics`.  The only read that can
throw is the first one (`item.start`), when `item` itself is nullish; every
later read is on `item` (now known non-nullish) or on a truthy value, so it
uses the total `getField`. -/
def mapItem (item : JsVal) : Except String DiagItem := do
  let st0 ← getFieldE item "start"
  -- const start = item.start || {};
  let start := if truthy st0 then st0 else JsVal.obj []
  let endv := getField item "end"
  return {
    code := jsOr (getField item "code") .null
    message := jsOr (getField item "message") .null
    severity :=
      match getField item "severity" with
      | .undefined => .null
      | v => v
    start := {
      line := jsNullish (getField start "line") (jsNullish (getField item "line") .null)
      column := jsNullish (getField start "col")
        (jsNullish (getField start "column") (jsNullish (getField item "column") .null))
      offset := jsNullish (getField start "offset") (jsNullish (getField item "offset") .null)
    }
    endPos :=
      if truthy endv then
        some { line := getField endv "line", column := getField endv "col",
               offset := getField endv "offset" }
      else none
  }

/-- The normalized failure record for one file (the `diag` object of
`extractDiagnostics`). -/
structure Diagnostics where
  message : JsVal
  type : JsVal
  lexerErrors : List DiagItem
  parserErrors : List DiagItem
  semanticErrors : List DiagItem
  deriving Repr

/-- `error && error.message ? error.message : String(error)` with full
exception semantics (`&&` short-circuits, so `error.message` is only read
when `error` is truthy, hence non-nullish). -/
def topMessageE (error : JsVal) : Except String JsVal := do
  let cond ← if truthy error then getFieldE error "message" else pure error
  if truthy cond then getFieldE error "message"
  else return .str (jsToString error)

/-- `error && error.type !== undefined ? error.type : null` with full
exception semantics (parses as `(error && (error.type !== undefined))`). -/
def topTypeE (error : JsVal) : Except String JsVal := do
  let cond ← if truthy error then do
      let t ← getFieldE error "type"
      pure (JsVal.bool (match t with | .undefined => false | _ => true))
    else pure error
  if truthy cond then getFieldE error "type"
  else return .null

/-- Total evaluation of the top-level `message` expression; `topMessageE`
is proved to agree with it. -/
def topMessageT (error : JsVal) : JsVal :=
  let cond := if truthy error then getField error "message" else error
  if truthy cond then getField error "message" else .str (jsToString error)

/-- Total evaluation of the top-level `type` expression. -/
def topTypeT (error : JsVal) : JsVal :=
  let cond := if truthy error then
      JsVal.bool (match getField error "type" with | .undefined => false | _ => true)
    else error
  if truthy cond then getField error "type" else .null

/-- One category branch inside the `try` block:
`if (error.X && Array.isArray(error.X.items)) diag.Y = error.X.items.map(mapItem)`.
Returns `some mapped` when the guard held and mapping succeeded, `none` when
the guard failed (no assignment), and propagates a thrown exception. -/
def mapCategory (error : JsVal) (name : String) : Except String (Option (List DiagItem)) := do
  let d ← getFieldE error name
  if truthy d then
    match getField d "items" with
    | .arr items => do
        let mapped ← items.mapM mapItem
        return some mapped
    | _ => return none
  else return none

/-- The `try { ... } catch (e) { /- ignore -/ }` block of
`extractDiagnostics`: the three category assignments run in order, mutating
`diag`; the first thrown exception is swallowed, keeping all assignments
made so far and leaving the remaining categories at their `[]` default. -/
def runTryCatch (error : JsVal) (d0 : Diagnostics) : Diagnostics :=
  match mapCategory error "lexerDiagnostics" with
  | .error _ => d0
  | .ok lex =>
    let d1 := match lex with
      | some l => { d0 with lexerErrors := l }
      | none => d0
    match mapCategory error "parserDiagnostics" with
    | .error _ => d1
    | .ok par =>
      let d2 := match par with
        | some l => { d1 with parserErrors := l }
        | none => d1
      match mapCategory error "semanticDiagnostics" with
      | .error _ => d2
      | .ok sem =>
        match sem with
        | some l => { d2 with semanticErrors := l }
        | none => d2

/-- `extractDiagnostics(error)` as a total function: the top-level field
extraction followed by the caught category mapping. -/
def extractDiagnostics (error : JsVal) : Diagnostics :=
  runTryCatch error
    { message := topMessageT error
      type := topTypeT error
      lexerErrors := []
      parserErrors := []
      semanticErrors := [] }

/-- `extractDiagnostics` with full exception semantics for every property
read of its body (the statements outside the `try` block included); proving
it always returns `.ok` is the formal content of "must never raise". -/
def extractDiagnosticsE (error : JsVal) : Except String Diagnostics := do
  let msg ← topMessageE error
  let ty ← topTypeE error
  return runTryCatch error
    { message := msg, type := ty
      lexerErrors := [], parserErrors := [], semanticErrors := [] }

/-! ## The per-file validator and the batch loop (`processFile` / `main`) -/

/-- Status of a File Result: `passed`/`failed` are produced by
`processFile`; `error` is recorded by `main` when `processFile` itself
throws. -/
inductive Status where
  | passed
  | failed
  | error
  deriving DecidableEq, Repr

/-- One File Result as pushed into `results` (optional fields model JSON
fields that are simply absent on the other statuses). -/
structure FileResult where
  input : String
  atex : Option String
  status : Status
  errorCount : Option Nat
  diagnostics : Option Diagnostics
  message : Option String
  deriving Repr

/-- Outcomes of the external capabilities for the `try` block of
`processFile`, in execution order: `fs.readFile`, then
`ScoreLoader.loadScoreFromBytes`, then `AlphaTexExporter.exportToString`
(whose success yields the `atex` string), then
`AlphaTexImporter.initFromString`/`readScore`.  `none` means the step does
not throw; the first `some` is the value thrown. -/
structure RoundTripEnv where
  readErr : Option JsVal
  loadErr : Option JsVal
  exportErr : Option JsVal
  atexText : String
  importErr : Option JsVal

/-- What the `try` block of `processFile` does: either every step succeeds,
or the first failing step throws, with `atex` still `null` (`none`) when the
throw happened before `exportToString` completed. -/
inductive TryOutcome where
  | passed
  | thrown (err : JsVal) (atex : Option String)
  deriving Repr

/-- Run the `try` block steps in order against the capability oracle. -/
def runTry (rt : RoundTripEnv) : TryOutcome :=
  match rt.readErr with
  | some e => .thrown e none
  | none =>
    match rt.loadErr with
    | some e => .thrown e none
    | none =>
      match rt.exportErr with
      | some e => .thrown e none
      | none =>
        match rt.importErr with
        | some e => .thrown e (some rt.atexText)
        | none => .passed

/-- Outcomes of the persistence side-effects in the `catch` block, in
execution order.  `mkdirFailedGp5` and `mkdirFailAtex` are the two
`await ensureDir(...)` calls that are NOT wrapped in an inner `try`; their
failure rejects out of `processFile` (carrying the fs error's `.message`
string).  `copyFail` covers `copyFile` (its own `ensureDir` on the
destination directory included) and `writeFail` covers `fs.writeFile`; both
are wrapped in inner `try`/`catch` blocks that only `console.error`. -/
structure PersistEnv where
  mkdirFailedGp5 : Option String
  copyFail : Option String
  mkdirFailAtex : Option String
  writeFail : Option String

/-- Filesystem mutations performed by the persistence block, recorded so
frame properties (dry-run writes nothing) can be stated. -/
inductive WriteEvent where
  | mkdir (dir : String)
  | copyGp5 (file : String)
  | writeAtex (file : String)
  deriving DecidableEq, Repr

/-- Index of the last occurrence of `c` in `cs`, if any. -/
def lastIdxOf (cs : List Char) (c : Char) : Option Nat :=
  (List.range cs.length).foldl
    (fun acc i => if cs.getD i c = c ∧ cs.get? i ≠ none then some i else acc) none

/-- `path.basename(fileName, path.extname(fileName))`: strip the last
dot-extension, except when the only dot is the leading character (JS
`extname(".bashrc") = ""`).  Directory components never occur: the names
come from `fs.readdir`. -/
def baseNameNoExt (f : String) : String :=
  let cs := f.toList
  match lastIdxOf cs '.' with
  | none => f
  | some 0 => f
  | some i => String.mk (cs.take i)

/-- The `errorCount` computation
`(d.lexerErrors?.length || 0) + (d.parserErrors?.length || 0) + (d.semanticErrors?.length || 0)`:
the three fields are always arrays (never nullish) in a `Diagnostics`
record, and `n || 0 = n` on numbers, so this is the plain sum of lengths. -/
def errorCountOf (d : Diagnostics) : Nat :=
  d.lexerErrors.length + d.parserErrors.length + d.semanticErrors.length

/-- `processFile(inDir, outDir, fileName, options)`: run the round trip;
on a throw, extract diagnostics and (unless `dryRun`) persist the failing
input and the exported text.  The result is `.error m` exactly when
`processFile` itself rejects, which only the two un-guarded `ensureDir`
calls can cause (`m` is the fs error message).  The dead local `reportItem`
object of the source is omitted: it is never used.  A `fs.writeFile` whose
`atex` is still `null` rejects with a TypeError, which the inner `catch`
swallows, so no write event is recorded in that case. -/
def processFile (fileName : String) (rt : RoundTripEnv) (p : PersistEnv)
    (dryRun : Bool) : Except String (FileResult × List WriteEvent) :=
  let atexName := baseNameNoExt fileName ++ ".atex"
  match runTry rt with
  | .passed =>
    .ok ({ input := fileName, atex := some atexName, status := .passed,
           errorCount := none, diagnostics := none, message := none }, [])
  | .thrown err atex =>
    let diagnostics := extractDiagnostics err
    let errorCount := errorCountOf diagnostics
    let res : FileResult :=
      { input := fileName, atex := some atexName, status := .failed,
        errorCount := some errorCount, diagnostics := some diagnostics,
        message := none }
    if dryRun then .ok (res, [])
    else
      match p.mkdirFailedGp5 with
      | some m => .error m
      | none =>
        let evCopy : List WriteEvent :=
          match p.copyFail with
          | some _ => []
          | none => [.copyGp5 fileName]
        match p.mkdirFailAtex with
        | some m => .error m
        | none =>
          let evWrite : List WriteEvent :=
            match atex with
            | none => []
            | some _ =>
              match p.writeFail with
              | some _ => []
              | none => [.writeAtex atexName]
          .ok (res, [.mkdir "failed_gp5"] ++ evCopy ++ [.mkdir "fail_atex"] ++ evWrite)

/-- The external world for one file: round-trip capability outcomes plus
persistence outcomes. -/
structure FileEnv where
  rt : RoundTripEnv
  p : PersistEnv

/-- The filter `f => f.toLowerCase().endsWith('.gp5')` applied to the
directory listing: lowercase every character, then test for the `.gp5`
suffix.  Stated on the underlying character list (`toLowerCase` is the
per-character lowercase map on the names that occur here) so that it
evaluates by reduction. -/
def gp5Pred (f : String) : Bool :=
  List.isSuffixOf ".gp5".toList (f.toList.map Char.toLower)

/-- One iteration of the `for` loop in `main`: invoke `processFile`; on
success push its result and the matching log line (the loop tests
`res.status === 'passed'`, everything else from `processFile` being
`failed`); when `processFile` rejects, push an `error` record carrying the
rejection's message. -/
def runOne (env : String → FileEnv) (dryRun : Bool) (fileName : String) :
    FileResult × String × List WriteEvent :=
  match processFile fileName (env fileName).rt (env fileName).p dryRun with
  | .ok (res, evs) =>
    let logLine :=
      if res.status = .passed then fileName ++ ": PASSED"
      else fileName ++ ": FAILED (" ++ toString (res.errorCount.getD 0) ++ " errors)"
    (res, logLine, evs)
  | .error m =>
    ({ input := fileName, atex := none, status := .error, errorCount := none,
       diagnostics := none, message := some m },
     fileName ++ ": ERROR (" ++ m ++ ")", [])

/-- The Batch Result (`summary` object of `main`). -/
structure Summary where
  generatedAt : String
  inputDir : String
  outDir : String
  totalFiles : Nat
  passed : Nat
  failed : Nat
  results : List FileResult
  deriving Repr

/-- Everything `main` produces that the claims talk about: the summary
(written to `report.json`), the flat log lines (written to `log.txt`), and
the artifact filesystem mutations. -/
structure RunOutput where
  summary : Summary
  logLines : List String
  writes : List WriteEvent
  deriving Repr

/-- The body of `main` after setup: filter the listing to `.gp5` files,
process each in listing order (each iteration appends exactly one result
and one log line; nothing in the loop body can throw, every awaited
operation being routed through `processFile`'s `Except`), then build the
summary.  `generatedAt` (`new Date().toISOString()`) is supplied as the
parameter `ts`; `inputDir`/`outDir` are the resolved directories. -/
def mainModel (ts inDir outDir : String) (listing : List String)
    (env : String → FileEnv) (dryRun : Bool) : RunOutput :=
  let gp5Files := listing.filter gp5Pred
  let triples := gp5Files.map (runOne env dryRun)
  let results := triples.map (·.1)
  { summary :=
      { generatedAt := ts
        inputDir := inDir
        outDir := outDir
        totalFiles := gp5Files.length
        passed := (results.filter (fun r => r.status = Status.passed)).length
        failed := (results.filter (fun r => r.status = Status.failed)).length
        results := results }
    logLines := triples.map (·.2.1)
    writes := (triples.map (·.2.2)).flatten }

/-! ## Helper lemmas -/

/-- Bind on a successful `Except` computes. -/
theorem ok_bind {ε α β : Type} (a : α) (f : α → Except ε β) :
    (Except.ok a >>= f : Except ε β) = f a := rfl

/-- `pure` for `Except` is `ok`. -/
theorem pure_eq_ok {ε α : Type} (a : α) : (pure a : Except ε α) = .ok a := rfl

/-- Inversion for successful `processFile` calls: the result carries the
file's own name, its status is `passed` or `failed`, and on `failed` the
`errorCount` is the computed sum over the extracted diagnostics. -/
theorem processFile_ok (fileName : String) (rt : RoundTripEnv) (p : PersistEnv)
    (dryRun : Bool) (r : FileResult) (evs : List WriteEvent)
    (h : processFile fileName rt p dryRun = .ok (r, evs)) :
    r.input = fileName ∧
    (r.status = .passed ∨
      (r.status = .failed ∧ ∃ d, r.diagnostics = some d ∧
        r.errorCount = some (errorCountOf d))) := by
  unfold processFile at h
  rcases hrt : runTry rt with _ | ⟨err, atex⟩ <;> rw [hrt] at h
  · injection h with h
    injection h with h1 h2
    subst h1
    exact ⟨rfl, Or.inl rfl⟩
  · cases dryRun with
    | true =>
      simp only [if_pos rfl] at h
      injection h with h
      injection h with h1 h2
      subst h1
      exact ⟨rfl, Or.inr ⟨rfl, _, rfl, rfl⟩⟩
    | false =>
      simp only [Bool.false_eq_true, if_false] at h
      rcases hm1 : p.mkdirFailedGp5 with _ | m1 <;> rw [hm1] at h
      · rcases hm2 : p.mkdirFailAtex with _ | m2 <;> rw [hm2] at h
        · injection h with h
          injection h with h1 h2
          subst h1
          exact ⟨rfl, Or.inr ⟨rfl, _, rfl, rfl⟩⟩
        · exact absurd h (by simp)
      · exact absurd h (by simp)

/-- `processFile` in dry-run mode always succeeds and performs no writes. -/
theorem processFile_dryRun (fileName : String) (rt : RoundTripEnv) (p : PersistEnv) :
    ∃ r, processFile fileName rt p true = .ok (r, []) := by
  unfold processFile
  rcases hrt : runTry rt with _ | ⟨err, atex⟩ <;> simp

/-- When both un-guarded `ensureDir` calls succeed, the non-dry-run
`processFile` succeeds with the same File Result as the dry run (only the
performed writes differ). -/
theorem processFile_mkdir_ok (fileName : String) (rt : RoundTripEnv) (p : PersistEnv)
    (h1 : p.mkdirFailedGp5 = none) (h2 : p.mkdirFailAtex = none) :
    ∃ r evs, processFile fileName rt p false = .ok (r, evs) ∧
      processFile fileName rt p true = .ok (r, []) := by
  unfold processFile
  rcases hrt : runTry rt with _ | ⟨err, atex⟩ <;> simp [h1, h2]

/-- Each list element's result in the batch loop carries its own file
name. -/
theorem runOne_input (env : String → FileEnv) (dryRun : Bool) (fileName : String) :
    (runOne env dryRun fileName).1.input = fileName := by
  unfold runOne
  rcases h : processFile fileName (env fileName).rt (env fileName).p dryRun with m | ⟨r, evs⟩
  · rfl
  · exact (processFile_ok _ _ _ _ _ _ h).1

/-- Disjointness of the two status filters used for the summary counts. -/
theorem filter_passed_failed_le (l : List FileResult) :
    (l.filter fun r => r.status = Status.passed).length +
      (l.filter fun r => r.status = Status.failed).length ≤ l.length := by
  induction l with
  | nil => simp
  | cons a t ih =>
    rcases h : a.status <;>
      simp only [List.filter_cons, h, List.length_cons, decide_eq_true_eq] <;>
      simp <;> omega

/-! ## Claims -/

/-- C3: for every batch run, `passed + failed ≤ totalFiles` and the
`results` sequence has exactly `totalFiles` entries (one File Result per
processed file; `error`-status files count in neither tally). -/
theorem batch_counts_invariant (ts inDir outDir : String) (listing : List String)
    (env : String → FileEnv) (dryRun : Bool) :
    (mainModel ts inDir outDir listing env dryRun).summary.passed +
        (mainModel ts inDir outDir listing env dryRun).summary.failed ≤
      (mainModel ts inDir outDir listing env dryRun).summary.totalFiles ∧
    (mainModel ts inDir outDir listing env dryRun).summary.results.length =
      (mainModel ts inDir outDir listing env dryRun).summary.totalFiles := by
  constructor
  · calc (mainModel ts inDir outDir listing env dryRun).summary.passed +
        (mainModel ts inDir outDir listing env dryRun).summary.failed
        ≤ (mainModel ts inDir outDir listing env dryRun).summary.results.length :=
          filter_passed_failed_le _
      _ = (mainModel ts inDir outDir listing env dryRun).summary.totalFiles := by
          simp [mainModel]
  · simp [mainModel]

/-- C10: only directory entries accepted by the case-insensitive `.gp5`
filter are validated: the batch results are exactly those entries, in
listing order, and `totalFiles` counts them (not all directory entries). -/
theorem gp5_filter_determines_batch (ts inDir outDir : String) (listing : List String)
    (env : String → FileEnv) (dryRun : Bool) :
    (mainModel ts inDir outDir listing env dryRun).summary.results.map FileResult.input =
      listing.filter gp5Pred ∧
    (mainModel ts inDir outDir listing env dryRun).summary.totalFiles =
      (listing.filter gp5Pred).length := by
  constructor
  · show (((listing.filter gp5Pred).map (runOne env dryRun)).map (·.1)).map
        FileResult.input = listing.filter gp5Pred
    rw [List.map_map, List.map_map]
    exact List.map_congr_left (fun f _ => runOne_input env dryRun f) |>.trans
      (List.map_id _)
  · rfl

/-- C4: every `failed` File Result in a batch has `errorCount` equal to the
sum of the lengths of its three diagnostic sequences. -/
theorem failed_errorCount_is_sum (ts inDir outDir : String) (listing : List String)
    (env : String → FileEnv) (dryRun : Bool) (r : FileResult)
    (hr : r ∈ (mainModel ts inDir outDir listing env dryRun).summary.results)
    (hs : r.status = .failed) :
    ∃ d, r.diagnostics = some d ∧
      r.errorCount = some (d.lexerErrors.length + d.parserErrors.length +
        d.semanticErrors.length) := by
  have hr' : r ∈ ((listing.filter gp5Pred).map (runOne env dryRun)).map (·.1) := hr
  rw [List.mem_map] at hr'
  obtain ⟨t, ht, rfl⟩ := hr'
  rw [List.mem_map] at ht
  obtain ⟨f, _, rfl⟩ := ht
  revert hs
  unfold runOne
  rcases h : processFile f (env f).rt (env f).p dryRun with m | ⟨res, evs⟩
  · intro hs
    exact absurd hs (by simp)
  · intro hs
    rcases (processFile_ok _ _ _ _ _ _ h).2 with hp | ⟨_, d, hd, hc⟩
    · rw [hp] at hs
      exact absurd hs (by simp)
    · exact ⟨d, hd, hc⟩

/-- A re-import failure carrying two semantic diagnostic items, for the C4
witness. -/
def semFailErr : JsVal :=
  .obj [("message", .str "readScore failed"),
        ("semanticDiagnostics", .obj [("items", .arr [
            .obj [("code", .num 209), ("message", .str "m1")],
            .obj [("code", .num 218), ("message", .str "m2")]])])]

/-- Round trip for the C4 witness: export succeeds, re-import throws
`semFailErr`. -/
def c4Rt : RoundTripEnv :=
  { readErr := none, loadErr := none, exportErr := none, atexText := "\\title T."
    importErr := some semFailErr }

/-- Batch environment for the C4 witness. -/
def c4Env : String → FileEnv := fun _ =>
  ⟨c4Rt, { mkdirFailedGp5 := none, copyFail := none, mkdirFailAtex := none,
           writeFail := none }⟩

/-- The File Result the C4 witness corpus produces for its single file. -/
def c4Res : FileResult :=
  { input := "t.gp5", atex := some "t.atex", status := .failed
    errorCount := some 2
    diagnostics := some
      { message := .str "readScore failed", type := .null
        lexerErrors := [], parserErrors := []
        semanticErrors :=
          [{ code := .num 209, message := .str "m1", severity := .null
             start := { line := .null, column := .null, offset := .null }, endPos := none },
           { code := .num 218, message := .str "m2", severity := .null
             start := { line := .null, column := .null, offset := .null }, endPos := none }] }
    message := none }

/-- Witness for C4 on a concrete batch whose single file fails with two
semantic diagnostics. -/
theorem failed_errorCount_is_sum_witness :
    ∃ d, c4Res.diagnostics = some d ∧
      c4Res.errorCount = some (d.lexerErrors.length + d.parserErrors.length +
        d.semanticErrors.length) :=
  failed_errorCount_is_sum "t0" "data/raw" "data/error" ["t.gp5"] c4Env false c4Res
    (List.Mem.head _) rfl

/-- The log-line format demanded by the Report Writer contract, stated from
the spec's wording: `<input>: PASSED`, `<input>: FAILED (<errorCount>
errors)` or `<input>: ERROR (<message>)` according to the result's
status. -/
def specLogLine (r : FileResult) : String :=
  match r.status with
  | .passed => r.input ++ ": PASSED"
  | .failed => r.input ++ ": FAILED (" ++ toString (r.errorCount.getD 0) ++ " errors)"
  | .error => r.input ++ ": ERROR (" ++ r.message.getD "" ++ ")"

/-- The log line built by the batch loop agrees with the specified format
applied to the File Result it records. -/
theorem runOne_logLine (env : String → FileEnv) (dryRun : Bool) (fileName : String) :
    (runOne env dryRun fileName).2.1 = specLogLine (runOne env dryRun fileName).1 := by
  unfold runOne
  rcases h : processFile fileName (env fileName).rt (env fileName).p dryRun with m | ⟨res, evs⟩
  · rfl
  · obtain ⟨hin, hst⟩ := processFile_ok _ _ _ _ _ _ h
    rcases hst with hp | ⟨hf, _⟩
    · simp [specLogLine, hp, hin]
    · simp [specLogLine, hf, hin]

/-- C9: the flat log has exactly one line per File Result, in the same
order, and each line follows the `PASSED`/`FAILED (n errors)`/`ERROR
(message)` format of its result. -/
theorem log_matches_results (ts inDir outDir : String) (listing : List String)
    (env : String → FileEnv) (dryRun : Bool) :
    (mainModel ts inDir outDir listing env dryRun).logLines.length =
      (mainModel ts inDir outDir listing env dryRun).summary.results.length ∧
    ∀ i : Nat,
      (mainModel ts inDir outDir listing env dryRun).logLines[i]? =
        ((mainModel ts inDir outDir listing env dryRun).summary.results[i]?).map
          specLogLine := by
  have hmap : (mainModel ts inDir outDir listing env dryRun).logLines =
      (mainModel ts inDir outDir listing env dryRun).summary.results.map specLogLine := by
    show ((listing.filter gp5Pred).map (runOne env dryRun)).map (·.2.1) =
      (((listing.filter gp5Pred).map (runOne env dryRun)).map (·.1)).map specLogLine
    rw [List.map_map, List.map_map, List.map_map]
    exact List.map_congr_left (fun f _ => runOne_logLine env dryRun f)
  constructor
  · rw [hmap, List.length_map]
  · intro i
    rw [hmap, List.getElem?_map]

/-! ## C1: status of load/export-step failures -/

/-- A round trip whose very first step (`fs.readFile`) rejects: the input
file is unreadable.  The thrown value is a typical fs `Error` object. -/
def unreadableRt : RoundTripEnv :=
  { readErr := some (.obj [("message", .str "EACCES: permission denied")])
    loadErr := none, exportErr := none, atexText := "", importErr := none }

/-- A persistence environment in which every filesystem side-effect
succeeds. -/
def okPersist : PersistEnv :=
  { mkdirFailedGp5 := none, copyFail := none, mkdirFailAtex := none, writeFail := none }

/-- Batch environment for the C1 counterexample: the single corpus file is
unreadable. -/
def c1Env : String → FileEnv := fun _ => ⟨unreadableRt, okPersist⟩

/-- C1 counterexample: a file whose bytes cannot even be read (an
unexpected failure in step 1, before any import/parse diagnostic) is
recorded with status `failed`, not `error`, contradicting the claim. -/
theorem load_failure_status_counterexample :
    ((mainModel "2026-01-01T00:00:00.000Z" "data/raw" "data/error" ["broken.gp5"]
          c1Env false).summary.results.map (fun r => r.status)) = [Status.failed] ∧
      Status.failed ≠ Status.error :=
  ⟨rfl, by decide⟩

/-- C1 amended: an unexpected failure in steps 1–2 (read, load, or export)
is caught by the same per-file handler as an import diagnostic and recorded
as `failed` — never `error` — as long as `processFile` itself does not
throw (dry run, or both un-guarded `ensureDir` calls succeed).  Status
`error` arises only when `processFile` rejects, which only a persistence
`ensureDir` failure can cause. -/
theorem load_failure_status_amended (fileName : String) (rt : RoundTripEnv)
    (p : PersistEnv) (dryRun : Bool)
    (hstep : rt.readErr.isSome ∨ rt.loadErr.isSome ∨ rt.exportErr.isSome)
    (hp : dryRun = true ∨ (p.mkdirFailedGp5 = none ∧ p.mkdirFailAtex = none)) :
    ∃ r evs, processFile fileName rt p dryRun = .ok (r, evs) ∧
      r.status = .failed := by
  have hthrown : ∃ e a, runTry rt = .thrown e a := by
    unfold runTry
    rcases h1 : rt.readErr with _ | e1
    · rcases h2 : rt.loadErr with _ | e2
      · rcases h3 : rt.exportErr with _ | e3
        · rcases hstep with hs | hs | hs <;> simp_all
        · exact ⟨e3, none, rfl⟩
      · exact ⟨e2, none, rfl⟩
    · exact ⟨e1, none, rfl⟩
  obtain ⟨e, a, hth⟩ := hthrown
  cases dryRun with
  | true =>
    unfold processFile
    rw [hth]
    exact ⟨_, _, rfl, rfl⟩
  | false =>
    rcases hp with hp | ⟨hm1, hm2⟩
    · exact absurd hp (by simp)
    · unfold processFile
      rw [hth, hm1, hm2]
      simp

/-- Witness for the amended C1 at a concrete unreadable file. -/
theorem load_failure_status_amended_witness :
    ∃ r evs, processFile "broken.gp5" unreadableRt okPersist false = .ok (r, evs) ∧
      r.status = .failed :=
  load_failure_status_amended "broken.gp5" unreadableRt okPersist false
    (Or.inl rfl) (Or.inr ⟨rfl, rfl⟩)

/-! ## C2: persistence side-effect failures after a validation failure -/

/-- A round trip that fails at re-import (a genuine validation failure)
with exported text in hand. -/
def importFailRt : RoundTripEnv :=
  { readErr := none, loadErr := none, exportErr := none, atexText := "\\title Song."
    importErr := some (.obj [("message", .str "bad tex")]) }

/-- Persistence environment whose first `ensureDir` call rejects. -/
def mkdirFailPersist : PersistEnv :=
  { mkdirFailedGp5 := some "ENOSPC: no space left on device"
    copyFail := none, mkdirFailAtex := none, writeFail := none }

/-- A round trip in which every step succeeds. -/
def passRt : RoundTripEnv :=
  { readErr := none, loadErr := none, exportErr := none, atexText := "\\title Ok."
    importErr := none }

/-- Batch environment for the C2 counterexample: the first corpus file
fails validation and then its persistence `ensureDir` rejects; the second
file validates cleanly. -/
def c2Env : String → FileEnv := fun f =>
  if f = "a.gp5" then ⟨importFailRt, mkdirFailPersist⟩ else ⟨passRt, okPersist⟩

/-- C2 counterexample: after a validation failure is determined, a failure
of the target-directory creation (one of the persistence side-effects named
by the claim) does NOT leave the recorded status `failed`: the file is
recorded as `error`.  The batch does continue (the second file is still
processed and passes). -/
theorem persistence_failure_status_counterexample :
    ((mainModel "2026-01-01T00:00:00.000Z" "data/raw" "data/error"
          ["a.gp5", "b.gp5"] c2Env false).summary.results.map
        (fun r => (r.status, r.message))) =
      [(Status.error, some "ENOSPC: no space left on device"), (Status.passed, none)] ∧
    Status.error ≠ Status.failed :=
  ⟨rfl, by decide⟩

/-- C2 amended: a failure of the artifact copy or of the export-text write
(each wrapped in its own `try`/`catch`) leaves the file's recorded status
`failed`; and no per-file environment whatsoever can shorten the batch —
every filtered file contributes exactly one result.  Only the two
un-guarded directory-creation calls change the recorded status (to
`error`, see the counterexample), and even they do not abort the batch. -/
theorem persistence_failure_status_amended :
    (∀ (fileName : String) (rt : RoundTripEnv) (p : PersistEnv) (e : JsVal)
        (a : Option String), runTry rt = .thrown e a →
      p.mkdirFailedGp5 = none → p.mkdirFailAtex = none →
      ∃ r evs, processFile fileName rt p false = .ok (r, evs) ∧ r.status = .failed) ∧
    (∀ (ts inDir outDir : String) (listing : List String) (env : String → FileEnv)
        (dryRun : Bool),
      (mainModel ts inDir outDir listing env dryRun).summary.results.length =
        (listing.filter gp5Pred).length) := by
  constructor
  · intro fileName rt p e a hth hm1 hm2
    unfold processFile
    rw [hth, hm1, hm2]
    simp
  · intro ts inDir outDir listing env dryRun
    simp [mainModel]

/-- Witness for the amended C2: a validation-failed file whose copy and
write persistence steps both reject still records status `failed`. -/
theorem persistence_failure_status_amended_witness :
    ∃ r evs, processFile "song.gp5" importFailRt
        { mkdirFailedGp5 := none, copyFail := some "EPERM: operation not permitted"
          mkdirFailAtex := none, writeFail := some "EDQUOT: disk quota exceeded" }
        false = .ok (r, evs) ∧ r.status = .failed :=
  persistence_failure_status_amended.1 "song.gp5" importFailRt _
    (.obj [("message", .str "bad tex")]) (some "\\title Song.") rfl rfl rfl

/-! ## C5: position resolution on the two naming conventions -/

/-- A diagnostic item carrying a nested position object `{start:{line:3,col:5}}`. -/
def nestedPosItem : JsVal := .obj [("start", .obj [("line", .num 3), ("col", .num 5)])]

/-- A diagnostic item carrying flat fields `{line:3,column:5}` and no
`start` object. -/
def flatPosItem : JsVal := .obj [("line", .num 3), ("column", .num 5)]

/-- C5: the nested item normalizes to `start = {line:3, column:5,
offset:null}`, and the flat item normalizes to the identical canonical
start value. -/
theorem position_resolution_examples :
    Except.map DiagItem.start (mapItem nestedPosItem) =
      .ok { line := .num 3, column := .num 5, offset := .null } ∧
    Except.map DiagItem.start (mapItem flatPosItem) =
      .ok { line := .num 3, column := .num 5, offset := .null } :=
  ⟨rfl, rfl⟩

/-! ## C6: field-resolution priority for start and end positions -/

/-- The spec's resolution rule, stated from its words: take the first
non-nullish value in priority order, defaulting to `null`. -/
def firstNonNullish : List JsVal → JsVal
  | [] => .null
  | v :: vs => if nullish v then firstNonNullish vs else v

/-- The nested position object consulted for `start` resolution:
`item.start || {}`. -/
def startOf (item : JsVal) : JsVal :=
  if truthy (getField item "start") then getField item "start" else .obj []

/-- An item whose `end` object uses the `column` naming convention (plus a
flat item-level `column`): under the claimed resolution rule its end column
would resolve to `5` (nested) or at worst `7` (flat). -/
def endColumnItem : JsVal :=
  .obj [("end", .obj [("line", .num 1), ("column", .num 5)]), ("column", .num 7)]

/-- C6 counterexample: for the `end` position the code reads only
`item.end.line`, `item.end.col`, `item.end.offset` with no alternate-field
fallback, so an `end` carrying `column` (and even a flat `column`) loses
that value: the normalized end column is `undefined`, not `5` or `7`. -/
theorem end_resolution_counterexample :
    Except.map (fun d => d.endPos.map JsPos.column) (mapItem endColumnItem) =
      .ok (some JsVal.undefined) ∧
    JsVal.undefined ≠ JsVal.num 5 ∧ JsVal.undefined ≠ JsVal.num 7 :=
  ⟨rfl, fun h => JsVal.noConfusion h, fun h => JsVal.noConfusion h⟩

/-- C6 amended: the first-non-null priority resolution (nested position
object before flat item fields) holds for the three `start` fields; for
`end`, the code copies `line`/`col`/`offset` directly off the nested `end`
object only — no `column` alternative and no flat-item fallback — and the
whole `end` is `null` whenever `item.end` is falsy. -/
theorem mapItem_resolution_amended (item : JsVal) (d : DiagItem)
    (h : mapItem item = .ok d) :
    d.start.line = firstNonNullish [getField (startOf item) "line", getField item "line"] ∧
    d.start.column = firstNonNullish [getField (startOf item) "col",
      getField (startOf item) "column", getField item "column"] ∧
    d.start.offset = firstNonNullish [getField (startOf item) "offset",
      getField item "offset"] ∧
    d.endPos = (if truthy (getField item "end") then
        some { line := getField (getField item "end") "line"
               column := getField (getField item "end") "col"
               offset := getField (getField item "end") "offset" }
      else none) := by
  have hne : getFieldE item "start" = .ok (getField item "start") := by
    cases item <;> first
      | rfl
      | (exfalso; unfold mapItem at h; simp [getFieldE] at h)
  unfold mapItem at h
  rw [hne] at h
  simp only [ok_bind, pure_eq_ok, Except.ok.injEq] at h
  subst h
  refine ⟨?_, ?_, ?_, rfl⟩ <;>
    simp [startOf, firstNonNullish, jsNullish]

/-- Witness item for the amended C6: flat `line` only. -/
def flatLineItem : JsVal := .obj [("line", .num 9)]

/-- The normalized form of `flatLineItem`. -/
def flatLineDiag : DiagItem :=
  { code := .null, message := .null, severity := .null
    start := { line := .num 9, column := .null, offset := .null }, endPos := none }

/-- Witness for the amended C6 at a concrete item. -/
theorem mapItem_resolution_amended_witness :
    flatLineDiag.start.line =
      firstNonNullish [getField (startOf flatLineItem) "line", getField flatLineItem "line"] ∧
    flatLineDiag.start.column = firstNonNullish [getField (startOf flatLineItem) "col",
      getField (startOf flatLineItem) "column", getField flatLineItem "column"] ∧
    flatLineDiag.start.offset = firstNonNullish [getField (startOf flatLineItem) "offset",
      getField flatLineItem "offset"] ∧
    flatLineDiag.endPos = (if truthy (getField flatLineItem "end") then
        some { line := getField (getField flatLineItem "end") "line"
               column := getField (getField flatLineItem "end") "col"
               offset := getField (getField flatLineItem "end") "offset" }
      else none) :=
  mapItem_resolution_amended flatLineItem flatLineDiag rfl

/-! ## C7: the Normalizer is total -/

/-- Property reads on truthy values never throw. -/
theorem getFieldE_of_truthy (v : JsVal) (name : String) (h : truthy v = true) :
    getFieldE v name = .ok (getField v name) := by
  cases v <;> simp_all [truthy, getFieldE]

/-- The exception-level top `message` extraction always succeeds, with the
total evaluation's value. -/
theorem topMessageE_eq (e : JsVal) : topMessageE e = .ok (topMessageT e) := by
  by_cases ht : truthy e = true
  · simp only [topMessageE, topMessageT, ht, if_true, getFieldE_of_truthy e _ ht, ok_bind]
    split <;> simp [getFieldE_of_truthy e _ ht, pure_eq_ok]
  · have hf : truthy e = false := by simpa using ht
    simp [topMessageE, topMessageT, hf, pure_bind, pure_eq_ok, ok_bind]

/-- The exception-level top `type` extraction always succeeds, with the
total evaluation's value. -/
theorem topTypeE_eq (e : JsVal) : topTypeE e = .ok (topTypeT e) := by
  by_cases ht : truthy e = true
  · simp only [topTypeE, topTypeT, ht, if_true, getFieldE_of_truthy e _ ht, ok_bind,
      pure_bind]
    split <;> simp [getFieldE_of_truthy e _ ht, pure_eq_ok]
  · have hf : truthy e = false := by simpa using ht
    simp [topTypeE, topTypeT, hf, pure_bind, pure_eq_ok, ok_bind]

/-- C7: for every failure value — `null`, malformed collections, anything —
the Normalizer returns a `Diagnostics` record without raising (the
exception-semantics evaluation always yields `.ok`), and each diagnostic
category is either the successfully mapped sequence or the empty default
when its mapping was skipped or threw. -/
theorem normalizer_never_raises (e : JsVal) :
    extractDiagnosticsE e = .ok (extractDiagnostics e) ∧
    ((extractDiagnostics e).lexerErrors = [] ∨
      mapCategory e "lexerDiagnostics" = .ok (some (extractDiagnostics e).lexerErrors)) ∧
    ((extractDiagnostics e).parserErrors = [] ∨
      mapCategory e "parserDiagnostics" = .ok (some (extractDiagnostics e).parserErrors)) ∧
    ((extractDiagnostics e).semanticErrors = [] ∨
      mapCategory e "semanticDiagnostics" = .ok (some (extractDiagnostics e).semanticErrors)) := by
  refine ⟨?_, ?_⟩
  · simp [extractDiagnosticsE, extractDiagnostics, topMessageE_eq, topTypeE_eq, ok_bind]
  · unfold extractDiagnostics runTryCatch
    rcases h1 : mapCategory e "lexerDiagnostics" with m1 | (_ | l1) <;>
      rcases h2 : mapCategory e "parserDiagnostics" with m2 | (_ | l2) <;>
      rcases h3 : mapCategory e "semanticDiagnostics" with m3 | (_ | l3) <;>
      simp

/-! ## C8: dry-run frame property -/

/-- C8: on any corpus with at least one failing file, a dry run produces a
Batch Result equal to the non-dry run's (the run timestamp being the same
parameter `ts`) and performs no artifact writes at all — provided the
non-dry run's persistence directory creations succeed (their failure flips
a status to `error`, see the C2 counterexample). -/
theorem dry_run_same_results (ts inDir outDir : String) (listing : List String)
    (env : String → FileEnv)
    (hmk : ∀ f, (env f).p.mkdirFailedGp5 = none ∧ (env f).p.mkdirFailAtex = none)
    (_hfail : ∃ r, r ∈ (mainModel ts inDir outDir listing env true).summary.results ∧
      r.status = .failed) :
    (mainModel ts inDir outDir listing env true).summary =
      (mainModel ts inDir outDir listing env false).summary ∧
    (mainModel ts inDir outDir listing env true).writes = [] := by
  have hone : ∀ f, (runOne env true f).1 = (runOne env false f).1 := by
    intro f
    obtain ⟨r, evs, hfalse, htrue⟩ :=
      processFile_mkdir_ok f (env f).rt (env f).p (hmk f).1 (hmk f).2
    unfold runOne
    rw [hfalse, htrue]
  have hres : ((listing.filter gp5Pred).map (runOne env true)).map (fun t => t.1) =
      ((listing.filter gp5Pred).map (runOne env false)).map (fun t => t.1) := by
    rw [List.map_map, List.map_map]
    exact List.map_congr_left (fun f _ => hone f)
  constructor
  · show Summary.mk ts inDir outDir _ _ _ _ = Summary.mk ts inDir outDir _ _ _ _
    rw [hres]
  · have hw : ∀ f, (runOne env true f).2.2 = [] := by
      intro f
      obtain ⟨r, htrue⟩ := processFile_dryRun f (env f).rt (env f).p
      unfold runOne
      rw [htrue]
    show (((listing.filter gp5Pred).map (runOne env true)).map (fun t => t.2.2)).flatten = []
    have h2 : ((listing.filter gp5Pred).map (runOne env true)).map (fun t => t.2.2) =
        (listing.filter gp5Pred).map (fun _ => ([] : List WriteEvent)) := by
      rw [List.map_map]
      exact List.map_congr_left (fun f _ => hw f)
    rw [h2]
    simp

/-- Batch environment for the C8 witness: one file that fails re-import,
all persistence operations able to succeed. -/
def c8Env : String → FileEnv := fun _ => ⟨importFailRt, okPersist⟩

/-- The File Result recorded for the C8 witness corpus's single file. -/
def c8FailedRes : FileResult :=
  { input := "song.gp5", atex := some "song.atex", status := .failed
    errorCount := some 0
    diagnostics := some { message := .str "bad tex", type := .null
                          lexerErrors := [], parserErrors := [], semanticErrors := [] }
    message := none }

/-- Witness for C8 on a concrete one-file failing corpus. -/
theorem dry_run_same_results_witness :
    (mainModel "t0" "data/raw" "data/error" ["song.gp5"] c8Env true).summary =
      (mainModel "t0" "data/raw" "data/error" ["song.gp5"] c8Env false).summary ∧
    (mainModel "t0" "data/raw" "data/error" ["song.gp5"] c8Env true).writes = [] :=
  dry_run_same_results "t0" "data/raw" "data/error" ["song.gp5"] c8Env
    (fun _ => ⟨rfl, rfl⟩) ⟨c8FailedRes, List.Mem.head _, rfl⟩

end GpFilter
